import Mathlib

/-!
Verification of the fleet live-position subsystem.

This file shallowly embeds the core of the repository in Lean 4:

* `src/fleet/movement_utils.py` — the spherical geometry helpers
  (`calculate_distance`, `calculate_bearing`, `move_distance_with_bearing`,
  `move_towards_target`), modelled over `ℝ` with real trigonometric
  functions from Mathlib standing in for the Python `math` module, and a
  faithful model `atan2` of C/Python `math.atan2`.
* `src/fleet/movement_manager.py` — the in-memory position table and its
  operations (`update_positions`, `update_plane_target`,
  `save_to_database`, `get_all_positions`), with the Django database
  modelled as an association list of plane records, Python `dict`
  semantics (insertion order, shallow `dict(d)` copies,
  `RuntimeError: dictionary changed size during iteration`) modelled
  explicitly, and the lock/IO interleaving of the two background
  operations modelled as event traces.
* `src/fleet/consumers.py` — the per-session filter state of
  `PlanePositionsConsumer` (`connect`, `receive`,
  `get_filtered_positions`), with Python truthiness of the stored
  numeric filter fields modelled on `Option ℝ`.
-/

namespace FlightApp

open Real

/-! ### Geo math (`src/fleet/movement_utils.py`)

Python floats are modelled as real numbers; `math.sin/cos/asin/atan2`
become `Real.sin/cos/arcsin` and the `atan2` defined below, which follows
the C convention used by `math.atan2` (result in `(-π, π]`, sign of `y`
selecting the half-plane when `x < 0`, `±π/2` on the positive/negative
`y`-axis, `0` at the origin). -/

/-- Model of Python `math.radians`. -/
noncomputable def radians (x : ℝ) : ℝ := x * π / 180

/-- Model of Python `math.degrees`. -/
noncomputable def degrees (x : ℝ) : ℝ := x * 180 / π

/-- Model of Python `math.atan2 y x` over the reals (C convention). -/
noncomputable def atan2 (y x : ℝ) : ℝ :=
  if 0 < x then arctan (y / x)
  else if x < 0 then
    (if 0 ≤ y then arctan (y / x) + π else arctan (y / x) - π)
  else if 0 < y then π / 2
  else if y < 0 then -(π / 2)
  else 0

/-- Model of Python `%` on reals for a positive modulus
(`a % b = a - b * floor (a / b)`, result sign following the divisor). -/
noncomputable def pymod (a b : ℝ) : ℝ := a - b * ⌊a / b⌋

/-- Function `calculate_distance` from `movement_utils.py`: haversine great-circle
distance in meters on a sphere of radius 6,371,000 m. -/
noncomputable def calculate_distance (lat1 lng1 lat2 lng2 : ℝ) : ℝ :=
  let R : ℝ := 6371000
  let lat1_rad := radians lat1
  let lat2_rad := radians lat2
  let dlat_rad := radians (lat2 - lat1)
  let dlng_rad := radians (lng2 - lng1)
  let a := sin (dlat_rad / 2) ^ 2 +
    cos lat1_rad * cos lat2_rad * sin (dlng_rad / 2) ^ 2
  let c := 2 * atan2 (Real.sqrt a) (Real.sqrt (1 - a))
  R * c

/-- Function `calculate_bearing` from `movement_utils.py`: initial heading from
point 1 to point 2, normalized by `(deg + 360) % 360`. -/
noncomputable def calculate_bearing (lat1 lng1 lat2 lng2 : ℝ) : ℝ :=
  let lat1_rad := radians lat1
  let lat2_rad := radians lat2
  let dlng_rad := radians (lng2 - lng1)
  let y := sin dlng_rad * cos lat2_rad
  let x := cos lat1_rad * sin lat2_rad -
    sin lat1_rad * cos lat2_rad * cos dlng_rad
  let bearing_rad := atan2 y x
  let bearing_deg := degrees bearing_rad
  pymod (bearing_deg + 360) 360

/-- Function `move_distance_with_bearing` from `movement_utils.py`: destination
point a given distance and bearing from an origin.  Note the returned
longitude is `lng_rad + atan2 ...` converted back to degrees, with no
wrap-around normalization. -/
noncomputable def move_distance_with_bearing
    (lat lng distance_meters bearing_degrees : ℝ) : ℝ × ℝ :=
  let R : ℝ := 6371000
  let lat_rad := radians lat
  let lng_rad := radians lng
  let bearing_rad := radians bearing_degrees
  let new_lat_rad := arcsin (sin lat_rad * cos (distance_meters / R) +
    cos lat_rad * sin (distance_meters / R) * cos bearing_rad)
  let new_lng_rad := lng_rad + atan2
    (sin bearing_rad * sin (distance_meters / R) * cos lat_rad)
    (cos (distance_meters / R) - sin lat_rad * sin new_lat_rad)
  (degrees new_lat_rad, degrees new_lng_rad)

/-- Function `move_towards_target` from `movement_utils.py`: snap to the target
when the remaining haversine distance is at most the step, otherwise
project the step along the initial bearing.  The `Bool` is the
`reached_target` flag. -/
noncomputable def move_towards_target
    (current_lat current_lng target_lat target_lng distance_meters : ℝ) :
    ℝ × ℝ × Bool :=
  let remaining_distance :=
    calculate_distance current_lat current_lng target_lat target_lng
  if remaining_distance ≤ distance_meters then
    (target_lat, target_lng, true)
  else
    let bearing := calculate_bearing current_lat current_lng target_lat target_lng
    let p := move_distance_with_bearing current_lat current_lng distance_meters bearing
    (p.1, p.2, false)

/-! ### Position store (`src/fleet/movement_manager.py`)

`MovementManager.plane_positions` is a Python dict mapping plane id to a
per-plane dict of floats; we model it as an insertion-ordered association
list `Table`.  The Django `Plane` table is the durable storage; we model
it as an association list `Database` of records carrying the route
endpoints and the persisted position/direction (for a PointField, `.y` is
the latitude and `.x` the longitude; the records store those numbers
directly as `start_lat`, `start_lng`, and so on). -/

/-- One entry of `MovementManager.plane_positions`. -/
structure EntityState where
  current_lat : ℝ
  current_lng : ℝ
  target_lat : ℝ
  target_lng : ℝ
  is_going_to_end : Bool
  last_updated : ℝ

/-- One durable `Plane` row: route endpoints plus the persisted position
and direction flag. -/
structure PlaneRec where
  start_lat : ℝ
  start_lng : ℝ
  end_lat : ℝ
  end_lng : ℝ
  current_lat : ℝ
  current_lng : ℝ
  is_going_to_end : Bool

/-- The durable `Plane` table, keyed by plane id. -/
abbrev Database := List (Nat × PlaneRec)

/-- The in-memory `plane_positions` table, keyed by plane id. -/
abbrev Table := List (Nat × EntityState)

/-- The body of the `for` loop of `MovementManager.update_positions` for a
single plane: move toward the target by `step` meters; on arrival flip
`is_going_to_end` and re-query the durable record for the new target
(`end_point` if now going to the end, else `start_point`); if the durable
record has vanished the plane is removed (`none`).  `now` is the
`time.time()` value of the tick. -/
noncomputable def stepEntity (step now : ℝ) (db : Database) (plane_id : Nat)
    (pos : EntityState) : Option EntityState :=
  let m := move_towards_target pos.current_lat pos.current_lng
    pos.target_lat pos.target_lng step
  if m.2.2 then
    match db.lookup plane_id with
    | none => none
    | some p =>
      some { current_lat := m.1, current_lng := m.2.1,
             target_lat := if !pos.is_going_to_end then p.end_lat else p.start_lat,
             target_lng := if !pos.is_going_to_end then p.end_lng else p.start_lng,
             is_going_to_end := !pos.is_going_to_end,
             last_updated := now }
  else
    some { pos with current_lat := m.1, current_lng := m.2.1, last_updated := now }

/-- Model of `MovementManager.update_positions` (the advanceAll
operation of the store):
iterates over a snapshot `list(...)` of the table, updating each entry in
place and deleting entries whose durable record is gone.  The early
return on an empty table is kept from the source. -/
noncomputable def update_positions (step now : ℝ) (db : Database)
    (table : Table) : Table :=
  if table.isEmpty then table
  else table.filterMap fun e => (stepEntity step now db e.1 e.2).map ((e.1, ·))

/-- Model of `MovementManager.update_plane_target` (the retarget
gateway): overwrite the target of the named plane in place, returning whether the plane
was found; an unknown id leaves the table untouched. -/
noncomputable def update_plane_target (table : Table) (plane_id : Nat)
    (new_target_lat new_target_lng : ℝ) : Bool × Table :=
  if table.any (fun e => e.1 == plane_id) then
    (true, table.map fun e =>
      if e.1 == plane_id then
        (e.1, { e.2 with target_lat := new_target_lat, target_lng := new_target_lng })
      else e)
  else
    (false, table)

/-- One pass of `saveGo` models the `for plane_id, pos in
self.plane_positions.items():` loop of `MovementManager.save_to_database`,
including the CPython live-iterator semantics: deleting a key from the dict
being iterated makes the *next* call to the iterator raise
`RuntimeError: dictionary changed size during iteration`.  The `deleted`
flag records whether a `del` has happened; once it is set the loop body is
never entered again (the `RuntimeError` fires first).  Returns
`(aborted, pending writes, removed ids)`: `aborted = true` means the loop
ended in the `RuntimeError`, which escapes the `transaction.atomic()`
block and rolls the pending writes back. -/
def saveGo (db : Database) : Table → Bool → Table → List Nat →
    Bool × Table × List Nat
  | [], deleted, writes, removed => (deleted, writes, removed)
  | (plane_id, pos) :: rest, deleted, writes, removed =>
    if deleted then (true, writes, removed)
    else
      match db.lookup plane_id with
      | some _ => saveGo db rest false (writes ++ [(plane_id, pos)]) removed
      | none => saveGo db rest true writes (removed ++ [plane_id])

/-- One committed write of `save_to_database`: store the in-memory
position and direction flag into the durable row of `plane_id`. -/
def applyWrite (db : Database) (plane_id : Nat) (pos : EntityState) : Database :=
  db.map fun r =>
    if r.1 == plane_id then
      (r.1, { r.2 with
                current_lat := pos.current_lat,
                current_lng := pos.current_lng,
                is_going_to_end := pos.is_going_to_end })
    else r

/-- Model of `MovementManager.save_to_database`: the whole loop runs inside
`transaction.atomic()`, so the pending writes only become durable when the
loop finishes without the iterator `RuntimeError`; if the `RuntimeError`
fires (i.e. some plane was pruned) the transaction is rolled back and the
outer `except` swallows the exception, so the call still returns normally.
In-memory deletions are Python state and survive the rollback.  Returns
the durable table and the in-memory table after the call. -/
def save_to_database (db : Database) (mem : Table) : Database × Table :=
  if mem.isEmpty then (db, mem)
  else
    let r := saveGo db mem false [] []
    let db' := if r.1 then db else r.2.1.foldl (fun d w => applyWrite d w.1 w.2) db
    let mem' := mem.filter fun e => !(r.2.2.contains e.1)
    (db', mem')

/-! ### Lock/IO traces

`update_positions` and `save_to_database` both take `self.positions_lock`
and talk to the Django ORM.  To settle where the database calls sit
relative to the lock we record the sequence of events each operation
performs. -/

/-- Events: taking/releasing `positions_lock`, and the per-plane ORM
calls (`Plane.objects.get` is a read, `plane.save` a write). -/
inductive Ev where
  | lockAcquire
  | lockRelease
  | dbRead (plane_id : Nat)
  | dbWrite (plane_id : Nat)

/-- ORM events issued by the body of the `update_positions` loop: a plane
that reaches its target triggers a `Plane.objects.get` for the new
endpoints (whether or not the row still exists). -/
noncomputable def updateEvents (step : ℝ) : Table → List Ev
  | [] => []
  | (plane_id, pos) :: rest =>
    (if (move_towards_target pos.current_lat pos.current_lng
        pos.target_lat pos.target_lng step).2.2
     then [Ev.dbRead plane_id] else []) ++ updateEvents step rest

/-- The event trace of `update_positions`: the whole loop, endpoint
lookups included, runs between the `with self.positions_lock` acquire and
release (lines 105–153 of `movement_manager.py`). -/
noncomputable def updatePositionsTrace (step : ℝ) (table : Table) : List Ev :=
  if table.isEmpty then []
  else Ev.lockAcquire :: updateEvents step table ++ [Ev.lockRelease]

/-- ORM events issued by the `save_to_database` loop (same
`RuntimeError` cut-off as `saveGo`): each processed plane is first read
(`Plane.objects.get`) and, when still present, written (`plane.save`). -/
def saveEvents (db : Database) : Table → Bool → List Ev
  | [], _ => []
  | (plane_id, _) :: rest, deleted =>
    if deleted then []
    else
      match db.lookup plane_id with
      | some _ => Ev.dbRead plane_id :: Ev.dbWrite plane_id :: saveEvents db rest false
      | none => Ev.dbRead plane_id :: saveEvents db rest true

/-- The event trace of `save_to_database`: the loop runs inside
`with self.positions_lock` (lines 167–181), which itself sits inside
`transaction.atomic()`. -/
def saveToDatabaseTrace (db : Database) (mem : Table) : List Ev :=
  if mem.isEmpty then []
  else Ev.lockAcquire :: saveEvents db mem false ++ [Ev.lockRelease]

/-- Scan a trace, tracking whether the lock is held, and report whether
any database event happens while it is held. -/
def anyIOLocked : List Ev → Bool → Bool
  | [], _ => false
  | Ev.lockAcquire :: r, _ => anyIOLocked r true
  | Ev.lockRelease :: r, _ => anyIOLocked r false
  | Ev.dbRead _ :: r, locked => locked || anyIOLocked r locked
  | Ev.dbWrite _ :: r, locked => locked || anyIOLocked r locked

/-- Whether a trace performs database I/O inside the locked section. -/
def ioInsideLock (tr : List Ev) : Bool := anyIOLocked tr false

/-! ### Snapshot aliasing model (`get_all_positions`)

`MovementManager.get_all_positions` returns `dict(self.plane_positions)`:
a fresh *outer* dict whose values are the very same per-plane dicts.  To
reason about that aliasing we give the per-plane dicts an explicit heap:
a `Heap` holds the per-plane dict objects, and the table maps plane ids to
heap addresses.  `dict(d)` then copies the address table (an immutable
list value in the model, so copies held by callers are independent at the top
level) while the addressed cells stay shared. -/

/-- The heap of per-plane position dicts. -/
abbrev Heap := List EntityState

/-- The `plane_positions` dict as id ↦ heap address. -/
abbrev RefTable := List (Nat × Nat)

/-- Shallow copy `dict(self.plane_positions)`: a fresh outer mapping with the same
inner references. -/
def get_all_positions (table : RefTable) : RefTable := table

/-- In-place mutation of a field of the per-plane dict at `addr`
(writing the field `current_lat` of the shared inner dict, as a caller
can do through any returned snapshot). -/
def heapWriteLat (h : Heap) (addr : Nat) (v : ℝ) : Heap :=
  match h[addr]? with
  | some e => h.set addr { e with current_lat := v }
  | none => h

/-- What a holder of table `t` (the store itself, or any snapshot copy)
observes for `plane_id` under heap `h`. -/
def viewPositions (h : Heap) (t : RefTable) (plane_id : Nat) : Option EntityState :=
  (t.lookup plane_id).bind fun a => h[a]?

/-! ### Streaming sessions (`src/fleet/consumers.py`)

`PlanePositionsConsumer` keeps seven per-session float-or-`None` fields.
Inbound JSON values that `float()` accepts are modelled as `JVal.num`;
values on which `float()` raises `ValueError`/`TypeError` as `JVal.bad`;
an absent key as `none`. -/

/-- A JSON value as seen by `float(...)`: convertible or not. -/
inductive JVal where
  | num (x : ℝ)
  | bad

/-- Conversion `float(value)`: `none` when the key is absent is never reached (the
branches test presence first); `JVal.bad` raises, `JVal.num` converts. -/
def pyFloat : Option JVal → Option ℝ
  | some (JVal.num x) => some x
  | _ => none

/-- The `type` field of an inbound message. -/
inductive MsgType where
  | update
  | clear
  | other

/-- The filter-related keys of a query string or inbound message. -/
structure FilterParams where
  lat : Option JVal
  lng : Option JVal
  radius : Option JVal
  min_lat : Option JVal
  max_lat : Option JVal
  min_lng : Option JVal
  max_lng : Option JVal

/-- An inbound WebSocket message, already JSON-parsed. -/
structure FilterMsg where
  msgType : MsgType
  params : FilterParams

/-- The per-session filter state of `PlanePositionsConsumer`. -/
structure SessionState where
  lat : Option ℝ
  lng : Option ℝ
  radius : Option ℝ
  min_lat : Option ℝ
  max_lat : Option ℝ
  min_lng : Option ℝ
  max_lng : Option ℝ

/-- Outbound replies of `receive` (payloads elided). -/
inductive WsResponse where
  | filters_updated
  | filters_cleared
  | error_resp

/-- Presence of the three radius keys `lat`, `lng`, `radius` in the payload. -/
def radKeys (p : FilterParams) : Bool :=
  p.lat.isSome && p.lng.isSome && p.radius.isSome

/-- Presence of the four bounding-box keys in the payload. -/
def boxKeys (p : FilterParams) : Bool :=
  p.min_lat.isSome && p.max_lat.isSome && p.min_lng.isSome && p.max_lng.isSome

/-- Model of `PlanePositionsConsumer.receive`: the `update_filters` branch
converts the three (resp. four) fields *in sequence*, assigning each
`self.<field>` as soon as its own `float()` succeeds; a later failure
jumps to the `except` handler, which only sends the error reply — fields
already assigned keep their new values and the other filter kind is not
cleared (the clearing happens after the last conversion).  `clear_filters`
resets all seven fields.  Any other `type` falls through silently. -/
def receive (s : SessionState) (m : FilterMsg) : SessionState × Option WsResponse :=
  match m.msgType with
  | MsgType.update =>
    if radKeys m.params then
      match pyFloat m.params.lat with
      | none => (s, some WsResponse.error_resp)
      | some a =>
        match pyFloat m.params.lng with
        | none => ({ s with lat := some a }, some WsResponse.error_resp)
        | some b =>
          match pyFloat m.params.radius with
          | none => ({ s with lat := some a, lng := some b }, some WsResponse.error_resp)
          | some c =>
            ({ s with
                 lat := some a, lng := some b, radius := some c,
                 min_lat := none, max_lat := none, min_lng := none, max_lng := none },
             some WsResponse.filters_updated)
    else if boxKeys m.params then
      match pyFloat m.params.min_lat with
      | none => (s, some WsResponse.error_resp)
      | some a =>
        match pyFloat m.params.max_lat with
        | none => ({ s with min_lat := some a }, some WsResponse.error_resp)
        | some b =>
          match pyFloat m.params.min_lng with
          | none => ({ s with min_lat := some a, max_lat := some b },
                     some WsResponse.error_resp)
          | some c =>
            match pyFloat m.params.max_lng with
            | none => ({ s with min_lat := some a, max_lat := some b, min_lng := some c },
                       some WsResponse.error_resp)
            | some d =>
              ({ s with
                   min_lat := some a, max_lat := some b, min_lng := some c,
                   max_lng := some d, lat := none, lng := none, radius := none },
               some WsResponse.filters_updated)
    else (s, some WsResponse.error_resp)
  | MsgType.clear =>
    ({ lat := none, lng := none, radius := none, min_lat := none,
       max_lat := none, min_lng := none, max_lng := none },
     some WsResponse.filters_cleared)
  | MsgType.other => (s, none)

/-- The radius group parsed at `connect`: the three `float()` calls sit
in one `try` whose `except` resets the whole group, so the group is
all-or-nothing. -/
def connectRad (q : FilterParams) : Option (ℝ × ℝ × ℝ) :=
  if radKeys q then
    match pyFloat q.lat, pyFloat q.lng, pyFloat q.radius with
    | some a, some b, some c => some (a, b, c)
    | _, _, _ => none
  else none

/-- The bounding-box group parsed at `connect`, likewise all-or-nothing. -/
def connectBox (q : FilterParams) : Option (ℝ × ℝ × ℝ × ℝ) :=
  if boxKeys q then
    match pyFloat q.min_lat, pyFloat q.max_lat, pyFloat q.min_lng, pyFloat q.max_lng with
    | some a, some b, some c, some d => some (a, b, c, d)
    | _, _, _, _ => none
  else none

/-- Model of `PlanePositionsConsumer.connect`: the two groups are parsed
independently from the query string and can both end up set. -/
def connectSession (q : FilterParams) : SessionState :=
  { lat := (connectRad q).map (·.1), lng := (connectRad q).map (·.2.1),
    radius := (connectRad q).map (·.2.2),
    min_lat := (connectBox q).map (·.1), max_lat := (connectBox q).map (·.2.1),
    min_lng := (connectBox q).map (·.2.2.1), max_lng := (connectBox q).map (·.2.2.2) }

/-- All three radius-filter fields are set (non-`None`). -/
def radSet (s : SessionState) : Bool :=
  s.lat.isSome && s.lng.isSome && s.radius.isSome

/-- All four bounding-box fields are set (non-`None`). -/
def boxSet (s : SessionState) : Bool :=
  s.min_lat.isSome && s.max_lat.isSome && s.min_lng.isSome && s.max_lng.isSome

/-- The inductive invariant behind mutual exclusion of the filters:
`self.radius` is only ever assigned by a fully successful radius update
(which clears `self.max_lng`), and `self.max_lng` only by a fully
successful bounding-box update (which clears `self.radius`), so the two
are never simultaneously set once the session starts from a state
satisfying this. -/
def sessionInv (s : SessionState) : Prop :=
  ¬ (s.radius.isSome = true ∧ s.max_lng.isSome = true)

/-- Python truthiness of a stored filter field: `None` and `0.0` are
falsy, any other float truthy. -/
def truthy (o : Option ℝ) : Prop := ∃ x, o = some x ∧ x ≠ 0

/-- Truthiness test `if self.lat and self.lng and self.radius:` — the radius filter is
applied only when all three fields are truthy. -/
def radActive (s : SessionState) : Prop :=
  truthy s.lat ∧ truthy s.lng ∧ truthy s.radius

/-- Truthiness test `elif self.min_lat and self.max_lat and self.min_lng and self.max_lng:`. -/
def boxActive (s : SessionState) : Prop :=
  truthy s.min_lat ∧ truthy s.max_lat ∧ truthy s.min_lng ∧ truthy s.max_lng

open scoped Classical in
/-- The `skip_plane` computation of `get_filtered_positions` for one
plane at `(lat, lng)`: radius test first, else bounding box, else keep. -/
noncomputable def skipPlane (s : SessionState) (lat lng : ℝ) : Bool :=
  if radActive s then
    decide (calculate_distance lat lng (s.lat.getD 0) (s.lng.getD 0) >
      s.radius.getD 0 * 1000)
  else if boxActive s then
    decide (¬ ((s.min_lat.getD 0 ≤ lat ∧ lat ≤ s.max_lat.getD 0) ∧
      (s.min_lng.getD 0 ≤ lng ∧ lng ≤ s.max_lng.getD 0)))
  else false

/-- Model of `PlanePositionsConsumer.get_filtered_positions`, restricted to what
the filter acts on: the in-memory positions projected to
`(plane_id, current_lat, current_lng)`; non-skipped planes are collected
and sorted ascending by id. -/
noncomputable def get_filtered_positions (s : SessionState)
    (positions : List (Nat × ℝ × ℝ)) : List (Nat × ℝ × ℝ) :=
  (positions.filter fun p => !skipPlane s p.2.1 p.2.2).mergeSort
    fun p q => decide (p.1 ≤ q.1)

/-! ### Concrete sample data used by witnesses and counterexamples -/

/-- A durable plane row with route `(0,0) → (0,1)`. -/
def samplePlane : PlaneRec :=
  { start_lat := 0, start_lng := 0, end_lat := 0, end_lng := 1,
    current_lat := 0, current_lng := 0, is_going_to_end := true }

/-- A one-plane durable table. -/
def sampleDb : Database := [(1, samplePlane)]

/-- An in-memory state already sitting on its target. -/
def samplePos : EntityState :=
  { current_lat := 0, current_lng := 0, target_lat := 0, target_lng := 0,
    is_going_to_end := true, last_updated := 0 }

/-- A one-plane in-memory table. -/
def sampleTable : Table := [(1, samplePos)]

/-- An in-memory state that has moved away from its persisted position,
so that a successful write would visibly change the durable row. -/
def posMoved : EntityState :=
  { current_lat := 5, current_lng := 6, target_lat := 0, target_lng := 1,
    is_going_to_end := true, last_updated := 0 }

/-- Three in-memory planes for the persistence scenario. -/
def memThree : Table := [(1, posMoved), (2, posMoved), (3, posMoved)]

/-- Durable storage from which plane 2 has been removed. -/
def dbMissingTwo : Database := [(1, samplePlane), (3, samplePlane)]

/-- A one-cell heap holding `samplePos`. -/
def sampleHeap : Heap := [samplePos]

/-- A reference table binding plane 1 to heap cell 0. -/
def sampleRefs : RefTable := [(1, 0)]

/-- A session holding a radius filter `(1, 2, 3)`. -/
def sessionRadius : SessionState :=
  { lat := some 1, lng := some 2, radius := some 3,
    min_lat := none, max_lat := none, min_lng := none, max_lng := none }

/-- An `update_filters` message whose `lat` converts but whose `lng` is
non-numeric. -/
def msgBadLng : FilterMsg :=
  { msgType := MsgType.update,
    params := { lat := some (JVal.num 5), lng := some JVal.bad,
                radius := some (JVal.num 7), min_lat := none, max_lat := none,
                min_lng := none, max_lng := none } }

/-- An `update_filters` message with no filter keys at all. -/
def msgNoKeys : FilterMsg :=
  { msgType := MsgType.update,
    params := { lat := none, lng := none, radius := none, min_lat := none,
                max_lat := none, min_lng := none, max_lng := none } }

/-- A query string carrying both complete, numeric filter groups. -/
def paramsBoth : FilterParams :=
  { lat := some (JVal.num 1), lng := some (JVal.num 2), radius := some (JVal.num 3),
    min_lat := some (JVal.num 4), max_lat := some (JVal.num 5),
    min_lng := some (JVal.num 6), max_lng := some (JVal.num 7) }

/-- An empty query string. -/
def paramsNone : FilterParams :=
  { lat := none, lng := none, radius := none, min_lat := none,
    max_lat := none, min_lng := none, max_lng := none }

/-- A stored radius filter whose center latitude is `0` (falsy). -/
def sessionZero : SessionState :=
  { lat := some 0, lng := some 5, radius := some 5,
    min_lat := none, max_lat := none, min_lng := none, max_lng := none }

/-- The model `atan2` always lands in `(-π, π]`, exactly as C/Python
`math.atan2` does. -/
theorem atan2_mem_Ioc (y x : ℝ) : atan2 y x ∈ Set.Ioc (-π) π := by
  have hpi := pi_pos
  have h1 : arctan (y / x) < π / 2 := arctan_lt_pi_div_two _
  have h2 : -(π / 2) < arctan (y / x) := neg_pi_div_two_lt_arctan _
  unfold atan2
  split_ifs with hx hx' hy hy' hy''
  · exact ⟨by linarith, by linarith⟩
  · -- x < 0, 0 ≤ y : arctan (y/x) + π ∈ (π/2, π]
    have hdiv : y / x ≤ 0 := div_nonpos_iff.mpr (Or.inl ⟨hy, hx'.le⟩)
    have h3 : arctan (y / x) ≤ 0 := by
      have := arctan_strictMono.monotone hdiv
      simpa [arctan_zero] using this
    exact ⟨by linarith, by linarith⟩
  · -- x < 0, y < 0 : arctan (y/x) - π ∈ (-π, -π/2)
    have hdiv : 0 < y / x := div_pos_iff.mpr (Or.inr ⟨lt_of_not_le hy, hx'⟩)
    have h3 : 0 < arctan (y / x) := by
      have := arctan_strictMono hdiv
      simpa [arctan_zero] using this
    exact ⟨by linarith, by linarith⟩
  · exact ⟨by linarith, by linarith⟩
  · exact ⟨by linarith, by linarith⟩
  · exact ⟨by linarith, hpi.le⟩

/-- C6 (counterexample): the claim "the destination-point projection
returns a longitude normalized to (−180,180]" is false on the code:
starting at longitude 180 and heading due east by `R·π/4` meters the
returned longitude is 225, outside `[-180, 180]`. -/
theorem spec_C6_counterexample :
    (move_distance_with_bearing 0 180 (6371000 * (π / 4)) 90).2 ∉
      Set.Icc (-180 : ℝ) 180 := by
  have hR : (6371000 : ℝ) ≠ 0 := by norm_num
  have hδ : 6371000 * (π / 4) / (6371000 : ℝ) = π / 4 := by
    field_simp
    ring
  have hr0 : radians 0 = 0 := by simp [radians]
  have hr90 : radians 90 = π / 2 := by rw [radians]; ring
  have hr180 : radians 180 = π := by rw [radians]; ring
  have hval : (move_distance_with_bearing 0 180 (6371000 * (π / 4)) 90).2 = 225 := by
    show degrees (radians 180 + atan2
      (sin (radians 90) * sin (6371000 * (π / 4) / 6371000) * cos (radians 0))
      (cos (6371000 * (π / 4) / 6371000) - sin (radians 0) *
        sin (arcsin (sin (radians 0) * cos (6371000 * (π / 4) / 6371000) +
          cos (radians 0) * sin (6371000 * (π / 4) / 6371000) * cos (radians 90))))) = 225
    rw [hδ, hr0, hr90, hr180]
    rw [Real.sin_zero, Real.cos_zero, Real.cos_pi_div_two, Real.sin_pi_div_two]
    norm_num
    have h2pos : (0 : ℝ) < Real.sqrt 2 / 2 := by positivity
    rw [atan2, if_pos h2pos, div_self h2pos.ne', Real.arctan_one]
    rw [degrees]
    field_simp
    ring
  rw [hval]
  intro hmem
  have h225 : (225 : ℝ) ≤ 180 := hmem.2
  norm_num at h225

/-- C6 (amended): `move_distance_with_bearing` applies no wrap-around
normalization; what does hold is that the returned longitude differs
from the origin longitude by at most half a turn: it always lies in the
interval `(lng − 180, lng + 180]`. -/
theorem spec_C6_amended (lat lng distance_meters bearing_degrees : ℝ) :
    (move_distance_with_bearing lat lng distance_meters bearing_degrees).2 ∈
      Set.Ioc (lng - 180) (lng + 180) := by
  have hpi := pi_pos
  set A := atan2
    (sin (radians bearing_degrees) * sin (distance_meters / 6371000) * cos (radians lat))
    (cos (distance_meters / 6371000) - sin (radians lat) *
      sin (arcsin (sin (radians lat) * cos (distance_meters / 6371000) +
        cos (radians lat) * sin (distance_meters / 6371000) *
          cos (radians bearing_degrees)))) with hA
  obtain ⟨hA1, hA2⟩ := atan2_mem_Ioc
    (sin (radians bearing_degrees) * sin (distance_meters / 6371000) * cos (radians lat))
    (cos (distance_meters / 6371000) - sin (radians lat) *
      sin (arcsin (sin (radians lat) * cos (distance_meters / 6371000) +
        cos (radians lat) * sin (distance_meters / 6371000) *
          cos (radians bearing_degrees))))
  rw [← hA] at hA1 hA2
  have hshape :
      (move_distance_with_bearing lat lng distance_meters bearing_degrees).2 =
        lng + A * 180 / π := by
    show degrees (radians lng + A) = lng + A * 180 / π
    rw [degrees, radians]
    field_simp
  rw [hshape]
  constructor
  · have : -180 < A * 180 / π := by
      rw [lt_div_iff₀ hpi]
      nlinarith
    linarith
  · have : A * 180 / π ≤ 180 := by
      rw [div_le_iff₀ hpi]
      nlinarith
    linarith

/-- C1: for every plane in the store whose durable record still exists,
one `advanceAll` tick with step `s` either snaps the plane exactly onto
its prior target with `is_going_to_end` flipped — and it does so iff the
haversine distance remaining to the target was at most `s` — or moves it
exactly to the point `s` meters along the initial bearing toward the
prior target (the destination-point projection of `s` meters at
`calculate_bearing`), leaving `is_going_to_end` and the target unchanged.
The final conjunct places the per-plane statement inside the whole-table
`update_positions` pass. -/
theorem spec_C1 (s now : ℝ) (db : Database) (table : Table) (plane_id : Nat)
    (pos : EntityState) (p : PlaneRec) (hdb : db.lookup plane_id = some p) :
    (calculate_distance pos.current_lat pos.current_lng pos.target_lat pos.target_lng ≤ s →
      stepEntity s now db plane_id pos = some
        { current_lat := pos.target_lat, current_lng := pos.target_lng,
          target_lat := if !pos.is_going_to_end then p.end_lat else p.start_lat,
          target_lng := if !pos.is_going_to_end then p.end_lng else p.start_lng,
          is_going_to_end := !pos.is_going_to_end,
          last_updated := now }) ∧
    (¬ calculate_distance pos.current_lat pos.current_lng pos.target_lat pos.target_lng ≤ s →
      stepEntity s now db plane_id pos = some
        { current_lat := (move_distance_with_bearing pos.current_lat pos.current_lng s
            (calculate_bearing pos.current_lat pos.current_lng pos.target_lat pos.target_lng)).1,
          current_lng := (move_distance_with_bearing pos.current_lat pos.current_lng s
            (calculate_bearing pos.current_lat pos.current_lng pos.target_lat pos.target_lng)).2,
          target_lat := pos.target_lat, target_lng := pos.target_lng,
          is_going_to_end := pos.is_going_to_end,
          last_updated := now }) ∧
    (∀ pos', (plane_id, pos) ∈ table → stepEntity s now db plane_id pos = some pos' →
      (plane_id, pos') ∈ update_positions s now db table) := by
  refine ⟨?_, ?_, ?_⟩
  · intro h
    simp [stepEntity, move_towards_target, hdb, h]
  · intro h
    simp [stepEntity, move_towards_target, hdb, h]
  · intro pos' hmem hstep
    have hne : table.isEmpty = false := by
      cases table with
      | nil => cases hmem
      | cons a t => rfl
    simp only [update_positions, hne, Bool.false_eq_true, if_false]
    exact List.mem_filterMap.mpr ⟨(plane_id, pos), hmem, by simp [hstep]⟩

/-- The haversine distance from a point to itself is zero. -/
theorem calculate_distance_self (lat lng : ℝ) :
    calculate_distance lat lng lat lng = 0 := by
  simp [calculate_distance, radians, atan2, Real.arctan_zero]

/-- Witness for C1: plane 1 of `sampleDb` sits on its target; the
arrival branch of the theorem fires with every hypothesis discharged on
concrete data. -/
theorem spec_C1_witness :
    sampleDb.lookup 1 = some samplePlane ∧
    (calculate_distance samplePos.current_lat samplePos.current_lng
        samplePos.target_lat samplePos.target_lng ≤ 600 →
      stepEntity 600 7 sampleDb 1 samplePos = some
        { current_lat := samplePos.target_lat, current_lng := samplePos.target_lng,
          target_lat := if !samplePos.is_going_to_end then samplePlane.end_lat
            else samplePlane.start_lat,
          target_lng := if !samplePos.is_going_to_end then samplePlane.end_lng
            else samplePlane.start_lng,
          is_going_to_end := !samplePos.is_going_to_end,
          last_updated := 7 }) :=
  ⟨rfl, (spec_C1 600 7 sampleDb sampleTable 1 samplePos samplePlane rfl).1⟩

/-- C4: `update_plane_target` on an id absent from the table returns
`false` and leaves the whole table untouched; on a present id it returns
`true` and rewrites exactly the `target_lat`/`target_lng` of that entry,
keeping its position, `is_going_to_end` and `last_updated`, and keeping
every other entry identical. -/
theorem spec_C4 (table : Table) (plane_id : Nat) (nlat nlng : ℝ) :
    (table.any (fun e => e.1 == plane_id) = false →
      update_plane_target table plane_id nlat nlng = (false, table)) ∧
    (table.any (fun e => e.1 == plane_id) = true →
      (update_plane_target table plane_id nlat nlng).1 = true ∧
      (update_plane_target table plane_id nlat nlng).2.length = table.length ∧
      ∀ (i : Nat) (e : Nat × EntityState), table[i]? = some e →
        (e.1 ≠ plane_id → (update_plane_target table plane_id nlat nlng).2[i]? = some e) ∧
        (e.1 = plane_id → (update_plane_target table plane_id nlat nlng).2[i]? =
          some (e.1, { e.2 with target_lat := nlat, target_lng := nlng }))) := by
  constructor
  · intro h
    simp [update_plane_target, h]
  · intro h
    refine ⟨by simp [update_plane_target, h], by simp [update_plane_target, h], ?_⟩
    intro i e he
    constructor
    · intro hne
      simp [update_plane_target, h, List.getElem?_map, he, hne]
    · intro heq
      simp [update_plane_target, h, List.getElem?_map, he, heq]

/-- Witness for C4, both branches on concrete tables: retargeting the
unloaded id 2 returns `false` with the table untouched; retargeting the
loaded id 1 returns `true`. -/
theorem spec_C4_witness :
    (sampleTable.any (fun e => e.1 == 2) = false ∧
      update_plane_target sampleTable 2 10 10 = (false, sampleTable)) ∧
    (sampleTable.any (fun e => e.1 == 1) = true ∧
      (update_plane_target sampleTable 1 10 10).1 = true) :=
  ⟨⟨rfl, (spec_C4 sampleTable 2 10 10).1 rfl⟩,
   ⟨rfl, ((spec_C4 sampleTable 1 10 10).2 rfl).1⟩⟩

/-- C2 (counterexample): `get_all_positions` returns `dict(...)`, a
*shallow* copy whose per-plane dicts are the very objects owned by the store.
Mutating a field of an entry of the returned copy (writing `99` into the
`current_lat` of the dict of plane 1, reached through the snapshot) changes
what the store itself observes for plane 1, refuting the claim that such
a mutation never affects the entity states of the store. -/
theorem spec_C2_counterexample :
    viewPositions (heapWriteLat sampleHeap 0 99) sampleRefs 1 ≠
      viewPositions sampleHeap sampleRefs 1 := by
  simp only [viewPositions, heapWriteLat, sampleHeap, sampleRefs, samplePos,
    List.lookup, List.getElem?_cons_zero, List.set_cons_zero, beq_self_eq_true,
    Option.some_bind, ne_eq, Option.some.injEq]
  intro hcontra
  have h99 : (99 : ℝ) = 0 := congrArg EntityState.current_lat hcontra
  norm_num at h99

/-- C2 (amended): the outer mapping returned by `get_all_positions` is a
fresh dict — in the model an immutable list of `(id, address)` pairs, so
the copies of two callers are independent at the top level — but the per-plane
dicts are shared by reference: writing a field through one returned
snapshot is observed identically through any other snapshot and through
the table of the store itself. -/
theorem spec_C2_amended (h : Heap) (t : RefTable) (plane_id addr : Nat)
    (e : EntityState) (v : ℝ)
    (h1 : t.lookup plane_id = some addr) (h2 : h[addr]? = some e) :
    viewPositions (heapWriteLat h addr v) (get_all_positions t) plane_id =
      some { e with current_lat := v } ∧
    viewPositions (heapWriteLat h addr v) t plane_id =
      some { e with current_lat := v } := by
  have hlt : addr < h.length := (List.getElem?_eq_some.mp h2).1
  have hview : viewPositions (heapWriteLat h addr v) t plane_id =
      some { e with current_lat := v } := by
    simp [viewPositions, heapWriteLat, h1, h2, List.getElem?_set_eq_of_lt _ hlt]
  exact ⟨hview, hview⟩

/-- Witness for C2 (amended) on the concrete one-plane store. -/
theorem spec_C2_witness :
    sampleRefs.lookup 1 = some 0 ∧ sampleHeap[0]? = some samplePos ∧
    (viewPositions (heapWriteLat sampleHeap 0 99) (get_all_positions sampleRefs) 1 =
        some { samplePos with current_lat := 99 } ∧
      viewPositions (heapWriteLat sampleHeap 0 99) sampleRefs 1 =
        some { samplePos with current_lat := 99 }) :=
  ⟨rfl, rfl, spec_C2_amended sampleHeap sampleRefs 1 0 samplePos 99 rfl rfl⟩

/-- C3: evaluation of `save_to_database` on the persistence scenario of
the spec —
three in-memory planes of which plane 2 has vanished from durable
storage.  The code prunes plane 2 from memory, but because the `del`
breaks the live dict iterator, the next loop step raises
`RuntimeError: dictionary changed size during iteration`, which aborts
`transaction.atomic()`: the durable table comes back *unchanged* — planes
1 and 3 are not persisted, contradicting the claim that failure of one
plane does not abort the writes of the others.  (The outer `except`
still swallows the error, so the call itself returns normally.) -/
theorem spec_C3 :
    save_to_database dbMissingTwo memThree =
      (dbMissingTwo, [(1, posMoved), (3, posMoved)]) := by
  rfl

/-- C9 (counterexample): `save_to_database` performs its per-plane ORM
reads and writes between acquiring and releasing `positions_lock` — on a
concrete one-plane store the trace shows database I/O inside the locked
section, refuting the claim that durable-storage access happens only
outside it. -/
theorem spec_C9_counterexample :
    ioInsideLock (saveToDatabaseTrace sampleDb sampleTable) = true := by
  rfl

/-- C9 (amended): both store operations do their durable-storage I/O
*inside* the locked section: `save_to_database` issues at least one ORM
call under the lock whenever the table is non-empty, and
`update_positions` issues its endpoint re-query under the lock whenever a
plane arrives (here: a plane already sitting on its target, with a
non-negative step). -/
theorem spec_C9_amended :
    (∀ (db : Database) (mem : Table), mem ≠ [] →
      ioInsideLock (saveToDatabaseTrace db mem) = true) ∧
    (∀ (step : ℝ) (plane_id : Nat) (e : EntityState),
      e.target_lat = e.current_lat → e.target_lng = e.current_lng → 0 ≤ step →
      ioInsideLock (updatePositionsTrace step [(plane_id, e)]) = true) := by
  constructor
  · intro db mem hne
    match mem with
    | (pid, pos) :: rest =>
      simp only [saveToDatabaseTrace, List.isEmpty_cons, if_false, Bool.false_eq_true,
        ioInsideLock, saveEvents]
      cases hdb : db.lookup pid <;> simp [anyIOLocked]
  · intro step plane_id e h1 h2 hstep
    have hrem : calculate_distance e.current_lat e.current_lng e.target_lat e.target_lng = 0 := by
      rw [h1, h2]
      exact calculate_distance_self _ _
    simp [updatePositionsTrace, updateEvents, move_towards_target, hrem, hstep,
      ioInsideLock, anyIOLocked]

/-- Witness for C9 (amended) on concrete stores. -/
theorem spec_C9_witness :
    ioInsideLock (saveToDatabaseTrace dbMissingTwo memThree) = true ∧
    ioInsideLock (updatePositionsTrace 600 [(1, samplePos)]) = true :=
  ⟨spec_C9_amended.1 dbMissingTwo memThree (by simp [memThree]),
   spec_C9_amended.2 600 1 samplePos rfl rfl (by norm_num)⟩

/-- C5 (counterexample): an `update_filters` message whose `lat` is
numeric but whose `lng` is not gets the error reply, yet the session
field `lat` has already been overwritten (5 replaces the previous 1) —
refuting the claim that a malformed update leaves the filter state
exactly as it was. -/
theorem spec_C5_counterexample :
    (receive sessionRadius msgBadLng).2 = some WsResponse.error_resp ∧
    (receive sessionRadius msgBadLng).1 ≠ sessionRadius := by
  refine ⟨rfl, ?_⟩
  intro hcontra
  have hlat := congrArg SessionState.lat hcontra
  simp [receive, sessionRadius, msgBadLng, radKeys, pyFloat] at hlat

/-- C5 (amended): a filter update with *missing* fields (neither complete
key group) is rejected with an error and mutates nothing, as is one whose
*first* field fails conversion; but when a later field of the chosen
group is non-numeric, the fields already converted keep their new values
and the other filter kind is not cleared — only the fields from the
failing conversion onward survive unchanged.  The eight conjuncts cover
every failure point of the two sequential conversion chains. -/
theorem spec_C5_amended (s : SessionState) (m : FilterMsg)
    (hm : m.msgType = MsgType.update) :
    (radKeys m.params = false → boxKeys m.params = false →
      receive s m = (s, some WsResponse.error_resp)) ∧
    (radKeys m.params = true → pyFloat m.params.lat = none →
      receive s m = (s, some WsResponse.error_resp)) ∧
    (∀ a : ℝ, radKeys m.params = true → pyFloat m.params.lat = some a →
      pyFloat m.params.lng = none →
      receive s m = ({ s with lat := some a }, some WsResponse.error_resp)) ∧
    (∀ a b : ℝ, radKeys m.params = true → pyFloat m.params.lat = some a →
      pyFloat m.params.lng = some b → pyFloat m.params.radius = none →
      receive s m = ({ s with lat := some a, lng := some b },
        some WsResponse.error_resp)) ∧
    (radKeys m.params = false → boxKeys m.params = true →
      pyFloat m.params.min_lat = none →
      receive s m = (s, some WsResponse.error_resp)) ∧
    (∀ a : ℝ, radKeys m.params = false → boxKeys m.params = true →
      pyFloat m.params.min_lat = some a → pyFloat m.params.max_lat = none →
      receive s m = ({ s with min_lat := some a }, some WsResponse.error_resp)) ∧
    (∀ a b : ℝ, radKeys m.params = false → boxKeys m.params = true →
      pyFloat m.params.min_lat = some a → pyFloat m.params.max_lat = some b →
      pyFloat m.params.min_lng = none →
      receive s m = ({ s with min_lat := some a, max_lat := some b },
        some WsResponse.error_resp)) ∧
    (∀ a b c : ℝ, radKeys m.params = false → boxKeys m.params = true →
      pyFloat m.params.min_lat = some a → pyFloat m.params.max_lat = some b →
      pyFloat m.params.min_lng = some c → pyFloat m.params.max_lng = none →
      receive s m = ({ s with min_lat := some a, max_lat := some b, min_lng := some c },
        some WsResponse.error_resp)) := by
  obtain ⟨mt, p⟩ := m
  have hmt : mt = MsgType.update := hm
  subst hmt
  refine ⟨?_, ?_, ?_, ?_, ?_, ?_, ?_, ?_⟩ <;> intros <;> simp_all [receive]

/-- Witness for C5 (amended): the keyless update message on the concrete
radius session is rejected without mutation. -/
theorem spec_C5_witness :
    msgNoKeys.msgType = MsgType.update ∧
    radKeys msgNoKeys.params = false ∧ boxKeys msgNoKeys.params = false ∧
    receive sessionRadius msgNoKeys = (sessionRadius, some WsResponse.error_resp) :=
  ⟨rfl, rfl, rfl, (spec_C5_amended sessionRadius msgNoKeys rfl).1 rfl rfl⟩

/-- C7: with an active (truthy) radius filter, a plane appears in the
emitted list iff it was in the snapshot and its haversine distance in
meters from the filter center is at most `radius * 1000` — inclusive at
the boundary, exclusive beyond it, since membership is exactly the
negation of the strict `distance > radius * 1000` skip test. -/
theorem spec_C7 (s : SessionState) (clat clng r : ℝ)
    (hlat : s.lat = some clat) (hlng : s.lng = some clng) (hr : s.radius = some r)
    (h1 : clat ≠ 0) (h2 : clng ≠ 0) (h3 : r ≠ 0)
    (positions : List (Nat × ℝ × ℝ)) (p : Nat × ℝ × ℝ) :
    p ∈ get_filtered_positions s positions ↔
      p ∈ positions ∧ calculate_distance p.2.1 p.2.2 clat clng ≤ r * 1000 := by
  have hact : radActive s := ⟨⟨clat, hlat, h1⟩, ⟨clng, hlng, h2⟩, ⟨r, hr, h3⟩⟩
  rw [get_filtered_positions, (List.mergeSort_perm _ _).mem_iff, List.mem_filter]
  simp [skipPlane, hact, hlat, hlng, hr, not_lt]

/-- Witness for C7 on the concrete radius session `(1, 2, 3)`. -/
theorem spec_C7_witness :
    sessionRadius.lat = some 1 ∧ sessionRadius.lng = some 2 ∧
    sessionRadius.radius = some 3 ∧
    (((0 : Nat), (0 : ℝ), (0 : ℝ)) ∈ get_filtered_positions sessionRadius [] ↔
      ((0 : Nat), (0 : ℝ), (0 : ℝ)) ∈ ([] : List (Nat × ℝ × ℝ)) ∧
        calculate_distance 0 0 1 2 ≤ 3 * 1000) :=
  ⟨rfl, rfl, rfl,
   spec_C7 sessionRadius 1 2 3 rfl rfl rfl (by norm_num) (by norm_num) (by norm_num)
     [] (0, 0, 0)⟩

/-- C8 (counterexample): `connect` parses the two filter groups
independently, so a query string carrying both complete numeric groups
leaves the session with the radius filter *and* the bounding-box filter
simultaneously set, refuting the claimed mutual exclusion over all
reachable states. -/
theorem spec_C8_counterexample :
    radSet (connectSession paramsBoth) = true ∧
    boxSet (connectSession paramsBoth) = true :=
  ⟨rfl, rfl⟩

/-- A single `receive` step preserves `sessionInv`. -/
theorem receive_preserves_inv (s : SessionState) (m : FilterMsg)
    (hinv : sessionInv s) : sessionInv (receive s m).1 := by
  obtain ⟨mt, p⟩ := m
  cases mt with
  | update =>
    by_cases hr : radKeys p = true
    · cases hlat : pyFloat p.lat with
      | none => simpa [receive, hr, hlat] using hinv
      | some a =>
        cases hlng : pyFloat p.lng with
        | none => simpa [receive, hr, hlat, hlng, sessionInv] using hinv
        | some b =>
          cases hrad : pyFloat p.radius with
          | none => simpa [receive, hr, hlat, hlng, hrad, sessionInv] using hinv
          | some c => simp [receive, hr, hlat, hlng, hrad, sessionInv]
    · by_cases hb : boxKeys p = true
      · cases hmin : pyFloat p.min_lat with
        | none => simpa [receive, hr, hb, hmin] using hinv
        | some a =>
          cases hmax : pyFloat p.max_lat with
          | none => simpa [receive, hr, hb, hmin, hmax, sessionInv] using hinv
          | some b =>
            cases hmnl : pyFloat p.min_lng with
            | none => simpa [receive, hr, hb, hmin, hmax, hmnl, sessionInv] using hinv
            | some c =>
              cases hmxl : pyFloat p.max_lng with
              | none => simpa [receive, hr, hb, hmin, hmax, hmnl, hmxl, sessionInv] using hinv
              | some d => simp [receive, hr, hb, hmin, hmax, hmnl, hmxl, sessionInv]
      · simpa [receive, hr, hb] using hinv
  | clear => simp [receive, sessionInv]
  | other => simpa [receive] using hinv

/-- The invariant `sessionInv` implies the two filters are not both fully set. -/
theorem sessionInv_mutex (s : SessionState) (h : sessionInv s) :
    ¬ (radSet s = true ∧ boxSet s = true) := by
  rintro ⟨hrad, hbox⟩
  simp only [radSet, boxSet, Bool.and_eq_true] at hrad hbox
  exact h ⟨hrad.2, hbox.2⟩

/-- At `connect` each group is all-or-nothing, so exclusion of the fully
set groups already gives the inductive invariant. -/
theorem connect_inv (q : FilterParams)
    (h : ¬ (radSet (connectSession q) = true ∧ boxSet (connectSession q) = true)) :
    sessionInv (connectSession q) := by
  cases hr : connectRad q <;> cases hb : connectBox q <;>
    simp_all [connectSession, radSet, boxSet, sessionInv]

/-- C8 (amended): `receive` does keep the two filters mutually exclusive
— a full radius update clears the box fields and vice versa, and a
partially failed update can never complete a group — so from any
connect-state in which the two filters are not both set, no sequence of
filter messages can ever make them both set.  The exclusion can only be
violated by `connect` itself (see the counterexample), whose query string
may populate both groups. -/
theorem spec_C8_amended (q : FilterParams) (msgs : List FilterMsg)
    (h : ¬ (radSet (connectSession q) = true ∧ boxSet (connectSession q) = true)) :
    ¬ (radSet (msgs.foldl (fun s m => (receive s m).1) (connectSession q)) = true ∧
       boxSet (msgs.foldl (fun s m => (receive s m).1) (connectSession q)) = true) := by
  have hinv : sessionInv (connectSession q) := connect_inv q h
  have hfold : ∀ (l : List FilterMsg) (s : SessionState), sessionInv s →
      sessionInv (l.foldl (fun s m => (receive s m).1) s) := by
    intro l
    induction l with
    | nil => intro s hs; exact hs
    | cons m rest ih =>
      intro s hs
      exact ih _ (receive_preserves_inv s m hs)
  exact sessionInv_mutex _ (hfold msgs _ hinv)

/-- Witness for C8 (amended): the empty query string followed by the
malformed radius update leaves the filters mutually exclusive. -/
theorem spec_C8_witness :
    ¬ (radSet (connectSession paramsNone) = true ∧
       boxSet (connectSession paramsNone) = true) ∧
    ¬ (radSet ([msgBadLng].foldl (fun s m => (receive s m).1)
          (connectSession paramsNone)) = true ∧
       boxSet ([msgBadLng].foldl (fun s m => (receive s m).1)
          (connectSession paramsNone)) = true) :=
  ⟨by decide, spec_C8_amended paramsNone [msgBadLng] (by decide)⟩

/-- With neither filter active every plane passes the filter. -/
theorem keep_all (s : SessionState) (hr : ¬ radActive s) (hb : ¬ boxActive s)
    (positions : List (Nat × ℝ × ℝ)) (p : Nat × ℝ × ℝ) :
    p ∈ get_filtered_positions s positions ↔ p ∈ positions := by
  rw [get_filtered_positions, (List.mergeSort_perm _ _).mem_iff, List.mem_filter]
  simp [skipPlane, hr, hb]

/-- A field stored as `0.0` is falsy, hence not truthy. -/
theorem not_truthy_zero {o : Option ℝ} (h : o = some 0) : ¬ truthy o := by
  rintro ⟨x, hx, hxne⟩
  rw [h] at hx
  exact hxne (Option.some.inj hx).symm

/-- C10: the filter checks are Python truthiness tests, not presence
tests — a stored radius filter any of whose three parameters is `0.0`
deactivates the radius filter entirely (and, with no active box filter,
no plane is excluded that tick); likewise a stored bounding-box filter
with any bound equal to `0.0` excludes nothing when the radius filter is
not active. -/
theorem spec_C10 (s : SessionState) (positions : List (Nat × ℝ × ℝ))
    (p : Nat × ℝ × ℝ) :
    ((s.lat = some 0 ∨ s.lng = some 0 ∨ s.radius = some 0) → ¬ boxActive s →
      (p ∈ get_filtered_positions s positions ↔ p ∈ positions)) ∧
    ((s.min_lat = some 0 ∨ s.max_lat = some 0 ∨ s.min_lng = some 0 ∨
        s.max_lng = some 0) → ¬ radActive s →
      (p ∈ get_filtered_positions s positions ↔ p ∈ positions)) := by
  constructor
  · intro hz hb
    have hr : ¬ radActive s := by
      rintro ⟨t1, t2, t3⟩
      rcases hz with h | h | h
      · exact not_truthy_zero h t1
      · exact not_truthy_zero h t2
      · exact not_truthy_zero h t3
    exact keep_all s hr hb positions p
  · intro hz hr
    have hb : ¬ boxActive s := by
      rintro ⟨t1, t2, t3, t4⟩
      rcases hz with h | h | h | h
      · exact not_truthy_zero h t1
      · exact not_truthy_zero h t2
      · exact not_truthy_zero h t3
      · exact not_truthy_zero h t4
    exact keep_all s hr hb positions p

/-- Witness for C10: the session whose stored center latitude is `0`
keeps the concrete plane `(0, 3, 4)` in the emitted list. -/
theorem spec_C10_witness :
    sessionZero.lat = some 0 ∧ ¬ boxActive sessionZero ∧
    (((0 : Nat), (3 : ℝ), (4 : ℝ)) ∈
        get_filtered_positions sessionZero [(0, 3, 4)] ↔
      ((0 : Nat), (3 : ℝ), (4 : ℝ)) ∈ [((0 : Nat), (3 : ℝ), (4 : ℝ))]) :=
  ⟨rfl, by simp [boxActive, truthy, sessionZero],
   (spec_C10 sessionZero [(0, 3, 4)] (0, 3, 4)).1 (Or.inl rfl)
     (by simp [boxActive, truthy, sessionZero])⟩

end FlightApp
